import Mathlib

/-!
Shallow embedding of the cascading response-recovery parser and the batched,
timeout-bounded dispatch loop of
`src/nextjs-app/src/app/api/audit/fast/route.ts`
(the "fast" audit route of the WebsiteAgeVerification proof of concept).

Conventions of the embedding:
* JavaScript strings are modelled as `List Char` internally, wrapped into
  `String` at API boundaries.
* JavaScript numbers are modelled as `ℚ` (all arithmetic performed by the
  route - `score / 100`, comparisons against 0 and 1 - is exact on the
  decimal literals involved, so no floating-point rounding is observable).
* Dynamically typed JSON values are modelled by the inductive `JVal`;
  JavaScript truthiness is `JVal.truthy`.
* Each JavaScript regular expression used by the route is hand-compiled to a
  deterministic scanner.  Every pattern in the file has the property that the
  JS backtracking search is equivalent to maximal-munch with an explicit
  backtracking step only where a greedy class overlaps the following literal
  (the quoted-value patterns); those cases are implemented by
  `pickQuoteSplit` / `lastNonQuoteTail` below.
* Unbounded loops are given explicit fuel; every caller passes fuel that is
  provably sufficient (each iteration consumes at least one character /
  one list element), so the fuelled functions agree with the JS originals.
-/

namespace FastAudit

/-! ### Character classes and string helpers -/

/-- JS regex `\s` restricted to the code points that can actually occur in
model output handled by the route (ASCII whitespace plus NBSP). -/
def jsWS (c : Char) : Bool :=
  c == ' ' || c == '\t' || c == '\n' || c == '\r' ||
  c.toNat == 11 || c.toNat == 12 || c.toNat == 160

/-- Whitespace accepted by `JSON.parse` (ECMA-404): space, tab, LF, CR. -/
def jsonWS (c : Char) : Bool :=
  c == ' ' || c == '\t' || c == '\n' || c == '\r'

/-- JS regex `\w`: ASCII letters, digits and underscore. -/
def isWordChar (c : Char) : Bool :=
  (decide (97 ≤ c.toNat) && decide (c.toNat ≤ 122)) ||
  (decide (65 ≤ c.toNat) && decide (c.toNat ≤ 90)) ||
  (decide (48 ≤ c.toNat) && decide (c.toNat ≤ 57)) || c == '_'

def isDigitChar (c : Char) : Bool :=
  decide (48 ≤ c.toNat) && decide (c.toNat ≤ 57)

/-- The character class `["\s]` used throughout the field-extraction regexes. -/
def qws (c : Char) : Bool := c == '"' || jsWS c

def lcChar (c : Char) : Char := c.toLower

def lcChars (s : List Char) : List Char := s.map lcChar

/-- Does `s` start with `pat` (exact match)? -/
def startsWithChars : List Char → List Char → Bool
  | [], _ => true
  | _ :: _, [] => false
  | p :: ps, c :: cs => p == c && startsWithChars ps cs

/-- Does `s` start with `pat`, comparing case-insensitively
(`pat` is given in lower case)? -/
def startsWithCI : List Char → List Char → Bool
  | [], _ => true
  | _ :: _, [] => false
  | p :: ps, c :: cs => p == lcChar c && startsWithCI ps cs

/-- `hay.includes(needle)` (case sensitive substring search). -/
def hasSubChars (needle : List Char) : List Char → Bool
  | [] => startsWithChars needle []
  | c :: cs => startsWithChars needle (c :: cs) || hasSubChars needle cs

/-- `hay.includes(needle)` on `String`s. -/
def strIncludes (hay needle : String) : Bool := hasSubChars needle.data hay.data

/-- `s.toLowerCase()`. -/
def lcString (s : String) : String := String.mk (lcChars s.data)

/-- `s.trim()` (JS trim over `jsWS`). -/
def trimJS (s : List Char) : List Char :=
  ((s.dropWhile jsWS).reverse.dropWhile jsWS).reverse

/-- Given the scan start `s` and the rest `r` remaining after a match, the
characters the match consumed (`match[0]` of the regex). -/
def consumedTo (s r : List Char) : List Char := s.take (s.length - r.length)

/-- `s.replace(pat, rep)` for a plain (non-regex) pattern: replaces the first
occurrence only, as in JavaScript. -/
def replaceOnceL (pat rep : List Char) : List Char → List Char
  | [] => []
  | c :: cs =>
    if startsWithChars pat (c :: cs) then rep ++ (c :: cs).drop pat.length
    else c :: replaceOnceL pat rep cs

def replaceOnce (s pat rep : String) : String :=
  String.mk (replaceOnceL pat.data rep.data s.data)

/-! ### Dynamically-typed JSON values -/

/-- A JavaScript value as produced by `JSON.parse` (plus the objects the
route builds itself). -/
inductive JVal where
  | null : JVal
  | bool : Bool → JVal
  | num : ℚ → JVal
  | str : String → JVal
  | arr : List JVal → JVal
  | obj : List (String × JVal) → JVal

/-- JavaScript truthiness of a `JVal` (arrays and objects are truthy). -/
def JVal.truthy : JVal → Bool
  | .null => false
  | .bool b => b
  | .num q => decide (q ≠ 0)
  | .str s => decide (s ≠ "")
  | .arr _ => true
  | .obj _ => true

/-- `v.k` member access: `undefined` (here `none`) unless `v` is an object
with the field; a duplicated key keeps its last occurrence, as in JS. -/
def JVal.getField (v : JVal) (k : String) : Option JVal :=
  match v with
  | .obj fields => fields.foldl (fun acc p => if p.1 = k then some p.2 else acc) none
  | _ => none

def JVal.asStr : JVal → Option String
  | .str s => some s
  | _ => none

def JVal.asNum : JVal → Option ℚ
  | .num q => some q
  | _ => none

def JVal.asBool : JVal → Option Bool
  | .bool b => some b
  | _ => none

/-- `x || d` where `x` is a possibly-absent object field. -/
def jOr (x : Option JVal) (d : JVal) : JVal :=
  match x with
  | some v => if v.truthy then v else d
  | none => d

/-! ### `JSON.parse` (strict JSON, ECMA-404) -/

def skipJsonWs (s : List Char) : List Char := s.dropWhile jsonWS

def hexVal (c : Char) : Option Nat :=
  if isDigitChar c then some (c.toNat - 48)
  else if decide (97 ≤ c.toNat) && decide (c.toNat ≤ 102) then some (c.toNat - 87)
  else if decide (65 ≤ c.toNat) && decide (c.toNat ≤ 70) then some (c.toNat - 55)
  else none

/-- Parse the body of a JSON string literal, the opening quote already
consumed.  Rejects raw control characters, handles the standard escapes.
Returns the decoded string and the rest after the closing quote. -/
def parseStringBody : List Char → Option (List Char × List Char)
  | [] => none
  | '"' :: rest => some ([], rest)
  | '\\' :: rest =>
    match rest with
    | [] => none
    | e :: rest2 =>
      let dec : Option Char :=
        if e == '"' then some '"'
        else if e == '\\' then some '\\'
        else if e == '/' then some '/'
        else if e == 'b' then some (Char.ofNat 8)
        else if e == 'f' then some (Char.ofNat 12)
        else if e == 'n' then some '\n'
        else if e == 'r' then some '\r'
        else if e == 't' then some '\t'
        else none
      match dec with
      | some c =>
        match parseStringBody rest2 with
        | some (cs, r) => some (c :: cs, r)
        | none => none
      | none =>
        if e == 'u' then
          match rest2 with
          | h1 :: h2 :: h3 :: h4 :: rest3 =>
            match hexVal h1, hexVal h2, hexVal h3, hexVal h4 with
            | some a, some b, some c, some d =>
              match parseStringBody rest3 with
              | some (cs, r) => some (Char.ofNat (a * 4096 + b * 256 + c * 16 + d) :: cs, r)
              | none => none
            | _, _, _, _ => none
          | _ => none
        else none
  | c :: rest =>
    if decide (c.toNat < 32) then none
    else
      match parseStringBody rest with
      | some (cs, r) => some (c :: cs, r)
      | none => none

def digitsToNat (ds : List Char) : Nat :=
  ds.foldl (fun a c => a * 10 + (c.toNat - 48)) 0

/-- JSON number grammar: `-? (0 | [1-9][0-9]*) (. [0-9]+)? ([eE][+-]?[0-9]+)?`. -/
def parseNumberLit (s : List Char) : Option (ℚ × List Char) :=
  let (neg, s1) : Bool × List Char :=
    match s with
    | '-' :: r => (true, r)
    | _ => (false, s)
  let intPart : Option (List Char × List Char) :=
    match s1 with
    | '0' :: r => some (['0'], r)
    | c :: _ =>
      if isDigitChar c && !(c == '0') then
        some (s1.span isDigitChar)
      else none
    | [] => none
  match intPart with
  | none => none
  | some (ids, s2) =>
    let fracPart : Option (List Char × List Char) :=
      match s2 with
      | '.' :: r =>
        let (fs, r2) := r.span isDigitChar
        if fs.isEmpty then none else some (fs, r2)
      | _ => some ([], s2)
    match fracPart with
    | none => none
    | some (fds, s3) =>
      let expPart : Option (Bool × List Char × List Char) :=
        match s3 with
        | c :: r =>
          if c == 'e' || c == 'E' then
            let (esign, r1) : Bool × List Char :=
              match r with
              | '+' :: r2 => (false, r2)
              | '-' :: r2 => (true, r2)
              | _ => (false, r)
            let (eds, r2) := r1.span isDigitChar
            if eds.isEmpty then none else some (esign, eds, r2)
          else some (false, [], s3)
        | [] => some (false, [], s3)
      match expPart with
      | none => none
      | some (esign, eds, s4) =>
        let base : ℚ :=
          (digitsToNat ids : ℚ) + (digitsToNat fds : ℚ) / ((10 : ℚ) ^ fds.length)
        let e := digitsToNat eds
        let scaled : ℚ := if esign then base / (10 : ℚ) ^ e else base * (10 : ℚ) ^ e
        some ((if neg then -scaled else scaled), s4)

/-- One `"key": value` member, given a parser for values. -/
def parseOneField (pv : List Char → Option (JVal × List Char)) (s : List Char) :
    Option ((String × JVal) × List Char) :=
  match skipJsonWs s with
  | '"' :: r =>
    match parseStringBody r with
    | some (k, r2) =>
      match skipJsonWs r2 with
      | ':' :: r3 =>
        match pv r3 with
        | some (v, r4) => some ((String.mk k, v), r4)
        | none => none
      | _ => none
    | none => none
  | _ => none

/-- Members after the first: `, member`* then `}`. -/
def parseFieldTail (pv : List Char → Option (JVal × List Char)) :
    Nat → List (String × JVal) → List Char → Option (List (String × JVal) × List Char)
  | 0, _, _ => none
  | fuel + 1, acc, s =>
    match skipJsonWs s with
    | '}' :: r => some (acc.reverse, r)
    | ',' :: r =>
      match parseOneField pv r with
      | some (kv, r2) => parseFieldTail pv fuel (kv :: acc) r2
      | none => none
    | _ => none

/-- Object body after the opening `{`. -/
def parseFieldsJ (pv : List Char → Option (JVal × List Char)) (fuel : Nat) (s : List Char) :
    Option (List (String × JVal) × List Char) :=
  match skipJsonWs s with
  | '}' :: r => some ([], r)
  | _ =>
    match parseOneField pv s with
    | some (kv, r2) => parseFieldTail pv fuel [kv] r2
    | none => none

/-- Elements after the first: `, value`* then `]`. -/
def parseElemTail (pv : List Char → Option (JVal × List Char)) :
    Nat → List JVal → List Char → Option (List JVal × List Char)
  | 0, _, _ => none
  | fuel + 1, acc, s =>
    match skipJsonWs s with
    | ']' :: r => some (acc.reverse, r)
    | ',' :: r =>
      match pv r with
      | some (v, r2) => parseElemTail pv fuel (v :: acc) r2
      | none => none
    | _ => none

/-- Array body after the opening `[`. -/
def parseElemsJ (pv : List Char → Option (JVal × List Char)) (fuel : Nat) (s : List Char) :
    Option (List JVal × List Char) :=
  match skipJsonWs s with
  | ']' :: r => some ([], r)
  | _ =>
    match pv s with
    | some (v, r2) => parseElemTail pv fuel [v] r2
    | none => none

/-- A JSON value, leading whitespace allowed.  Structural recursion on fuel;
`jsonParse` passes `length + 1`, which is sufficient because every nesting
level consumes at least one character before recursing. -/
def parseVal : Nat → List Char → Option (JVal × List Char)
  | 0, _ => none
  | fuel + 1, s =>
    match skipJsonWs s with
    | '{' :: r =>
      match parseFieldsJ (parseVal fuel) fuel r with
      | some (fs, r2) => some (.obj fs, r2)
      | none => none
    | '[' :: r =>
      match parseElemsJ (parseVal fuel) fuel r with
      | some (vs, r2) => some (.arr vs, r2)
      | none => none
    | '"' :: r =>
      match parseStringBody r with
      | some (cs, r2) => some (.str (String.mk cs), r2)
      | none => none
    | 't' :: r =>
      if startsWithChars ['r', 'u', 'e'] r then some (.bool true, r.drop 3) else none
    | 'f' :: r =>
      if startsWithChars ['a', 'l', 's', 'e'] r then some (.bool false, r.drop 4) else none
    | 'n' :: r =>
      if startsWithChars ['u', 'l', 'l'] r then some (.null, r.drop 3) else none
    | other =>
      match parseNumberLit other with
      | some (q, r2) => some (.num q, r2)
      | none => none

/-- `JSON.parse`: one value, then only whitespace. -/
def jsonParse (s : List Char) : Option JVal :=
  match parseVal (s.length + 1) s with
  | some (v, rest) => if (skipJsonWs rest).isEmpty then some v else none
  | none => none

/-! ### Layer 0: `content.match(/\{[\s\S]*\}/)`

The greedy span from the first `{` to the last `}` of the whole text;
no match when no `{` precedes a `}`. -/

def extractJsonSpan (s : List Char) : Option (List Char) :=
  match s.findIdx? (· == '{') with
  | none => none
  | some i =>
    match s.reverse.findIdx? (· == '}') with
    | none => none
    | some jrev =>
      let j := s.length - 1 - jrev
      if decide (i < j) then some ((s.drop i).take (j - i + 1)) else none

/-! ### Layer 1 pre-processing

The four chained `.replace` calls of `parseRobustJSON` (route.ts lines
92-100), each hand-compiled from its regex.  All four patterns have
non-overlapping greedy classes, so JS matching is maximal munch: at each
scan position the match either succeeds deterministically or the scanner
advances one character.  Fuel = remaining input length (every step consumes
at least one character). -/

/-- `.replace(/(\w+):\s*([^",\s][^,}]*)/g, '"$1": "$2"')` -/
def preQuoteBareValue : Nat → List Char → List Char
  | 0, s => s
  | _ + 1, [] => []
  | fuel + 1, c :: rest =>
    if isWordChar c then
      let (w, rest1) := (c :: rest).span isWordChar
      match rest1 with
      | ':' :: r2 =>
        let r3 := r2.dropWhile jsWS
        match r3 with
        | v :: r4 =>
          if !(v == '"') && !(v == ',') && !(jsWS v) then
            let (vt, r5) := r4.span (fun d => !(d == ',') && !(d == '}'))
            '"' :: (w ++ '"' :: ':' :: ' ' :: '"' :: ((v :: vt) ++ '"' :: preQuoteBareValue fuel r5))
          else c :: preQuoteBareValue fuel rest
        | [] => c :: preQuoteBareValue fuel rest
      | _ => c :: preQuoteBareValue fuel rest
    else c :: preQuoteBareValue fuel rest

/-- `.replace(/(\w+):\s*"([^"]*)"/g, '"$1": "$2"')` -/
def preQuoteQuotedValue : Nat → List Char → List Char
  | 0, s => s
  | _ + 1, [] => []
  | fuel + 1, c :: rest =>
    if isWordChar c then
      let (w, rest1) := (c :: rest).span isWordChar
      match rest1 with
      | ':' :: r2 =>
        match r2.dropWhile jsWS with
        | '"' :: r4 =>
          let (v, r5) := r4.span (fun d => !(d == '"'))
          match r5 with
          | '"' :: r6 =>
            '"' :: (w ++ '"' :: ':' :: ' ' :: '"' :: (v ++ '"' :: preQuoteQuotedValue fuel r6))
          | _ => c :: preQuoteQuotedValue fuel rest
        | _ => c :: preQuoteQuotedValue fuel rest
      | _ => c :: preQuoteQuotedValue fuel rest
    else c :: preQuoteQuotedValue fuel rest

/-- `.replace(/(\w+):\s*null/g, '"$1": "null"')` -/
def preQuoteNull : Nat → List Char → List Char
  | 0, s => s
  | _ + 1, [] => []
  | fuel + 1, c :: rest =>
    if isWordChar c then
      let (w, rest1) := (c :: rest).span isWordChar
      match rest1 with
      | ':' :: r2 =>
        let r3 := r2.dropWhile jsWS
        if startsWithChars ['n', 'u', 'l', 'l'] r3 then
          '"' :: (w ++ '"' :: ':' :: ' ' :: '"' :: 'n' :: 'u' :: 'l' :: 'l' :: '"' ::
            preQuoteNull fuel (r3.drop 4))
        else c :: preQuoteNull fuel rest
      | _ => c :: preQuoteNull fuel rest
    else c :: preQuoteNull fuel rest

/-- `.replace(/(\w+):\s*(true|false)/g, '"$1": "$2"')` -/
def preQuoteBool : Nat → List Char → List Char
  | 0, s => s
  | _ + 1, [] => []
  | fuel + 1, c :: rest =>
    if isWordChar c then
      let (w, rest1) := (c :: rest).span isWordChar
      match rest1 with
      | ':' :: r2 =>
        let r3 := r2.dropWhile jsWS
        if startsWithChars ['t', 'r', 'u', 'e'] r3 then
          '"' :: (w ++ '"' :: ':' :: ' ' :: '"' :: 't' :: 'r' :: 'u' :: 'e' :: '"' ::
            preQuoteBool fuel (r3.drop 4))
        else if startsWithChars ['f', 'a', 'l', 's', 'e'] r3 then
          '"' :: (w ++ '"' :: ':' :: ' ' :: '"' :: 'f' :: 'a' :: 'l' :: 's' :: 'e' :: '"' ::
            preQuoteBool fuel (r3.drop 5))
        else c :: preQuoteBool fuel rest
      | _ => c :: preQuoteBool fuel rest
    else c :: preQuoteBool fuel rest

/-- The pre-processing chain of `parseRobustJSON` (lines 92-100), in source
order. -/
def preProcess (s : List Char) : List Char :=
  let a := preQuoteBareValue s.length s
  let b := preQuoteQuotedValue a.length a
  let c := preQuoteNull b.length b
  preQuoteBool c.length c

/-! ### Layer 3 "manual fixes"

The thirteen chained `.replace` calls plus `.trim()` of attempt 3
(route.ts lines 122-149), in source order. -/

/-- `.replace(/'/g, '"')` -/
def fixSingleQuotes (s : List Char) : List Char :=
  s.map (fun c => if c == Char.ofNat 39 then '"' else c)

/-- `.replace(/(\w+):\s*/g, '"$1": ')` -/
def fixUnquotedKeys : Nat → List Char → List Char
  | 0, s => s
  | _ + 1, [] => []
  | fuel + 1, c :: rest =>
    if isWordChar c then
      let (w, rest1) := (c :: rest).span isWordChar
      match rest1 with
      | ':' :: r2 =>
        '"' :: (w ++ '"' :: ':' :: ' ' :: fixUnquotedKeys fuel (r2.dropWhile jsWS))
      | _ => c :: fixUnquotedKeys fuel rest
    else c :: fixUnquotedKeys fuel rest

/-- `.replace(/,(\s*[}\]])/g, '$1')` -/
def fixTrailingCommas : Nat → List Char → List Char
  | 0, s => s
  | _ + 1, [] => []
  | fuel + 1, c :: rest =>
    if c == ',' then
      let (ws, r2) := rest.span jsWS
      match r2 with
      | b :: r3 =>
        if b == '}' || b == ']' then ws ++ b :: fixTrailingCommas fuel r3
        else c :: fixTrailingCommas fuel rest
      | [] => c :: fixTrailingCommas fuel rest
    else c :: fixTrailingCommas fuel rest

/-- `.replace(/:\s*(true|false)\s*([,}])/g, ':"$1"$2')` -/
def fixBoolQuotes : Nat → List Char → List Char
  | 0, s => s
  | _ + 1, [] => []
  | fuel + 1, c :: rest =>
    if c == ':' then
      let r2 := rest.dropWhile jsWS
      let tok : Option (List Char × List Char) :=
        if startsWithChars ['t', 'r', 'u', 'e'] r2 then some (['t', 'r', 'u', 'e'], r2.drop 4)
        else if startsWithChars ['f', 'a', 'l', 's', 'e'] r2 then
          some (['f', 'a', 'l', 's', 'e'], r2.drop 5)
        else none
      match tok with
      | some (b, r3) =>
        match r3.dropWhile jsWS with
        | d :: r4 =>
          if d == ',' || d == '}' then
            ':' :: '"' :: (b ++ '"' :: d :: fixBoolQuotes fuel r4)
          else c :: fixBoolQuotes fuel rest
        | [] => c :: fixBoolQuotes fuel rest
      | none => c :: fixBoolQuotes fuel rest
    else c :: fixBoolQuotes fuel rest

/-- `.replace(/:\s*(\d+\.\d+)\s*([,}])/g, ':"$1"$2')` -/
def fixDecimalQuotes : Nat → List Char → List Char
  | 0, s => s
  | _ + 1, [] => []
  | fuel + 1, c :: rest =>
    if c == ':' then
      let r2 := rest.dropWhile jsWS
      let (d1, r3) := r2.span isDigitChar
      if d1.isEmpty then c :: fixDecimalQuotes fuel rest
      else
        match r3 with
        | '.' :: r4 =>
          let (d2, r5) := r4.span isDigitChar
          if d2.isEmpty then c :: fixDecimalQuotes fuel rest
          else
            match r5.dropWhile jsWS with
            | d :: r6 =>
              if d == ',' || d == '}' then
                ':' :: '"' :: (d1 ++ '.' :: d2 ++ '"' :: d :: fixDecimalQuotes fuel r6)
              else c :: fixDecimalQuotes fuel rest
            | [] => c :: fixDecimalQuotes fuel rest
        | _ => c :: fixDecimalQuotes fuel rest
    else c :: fixDecimalQuotes fuel rest

/-- `.replace(/[\x00-\x1F\x7F-\x9F]/g, '')` -/
def stripControlChars (s : List Char) : List Char :=
  s.filter (fun c => !(decide (c.toNat ≤ 31) || (decide (127 ≤ c.toNat) && decide (c.toNat ≤ 159))))

/-- `.replace(/\s+/g, ' ')` -/
def collapseSpaces : Nat → List Char → List Char
  | 0, s => s
  | _ + 1, [] => []
  | fuel + 1, c :: rest =>
    if jsWS c then ' ' :: collapseSpaces fuel (rest.dropWhile jsWS)
    else c :: collapseSpaces fuel rest

/-- `.replace(/:\s*null\s*([,}])/g, ':"null"$1')` -/
def fixNullQuotes : Nat → List Char → List Char
  | 0, s => s
  | _ + 1, [] => []
  | fuel + 1, c :: rest =>
    if c == ':' then
      let r2 := rest.dropWhile jsWS
      if startsWithChars ['n', 'u', 'l', 'l'] r2 then
        match (r2.drop 4).dropWhile jsWS with
        | d :: r4 =>
          if d == ',' || d == '}' then
            ':' :: '"' :: 'n' :: 'u' :: 'l' :: 'l' :: '"' :: d :: fixNullQuotes fuel r4
          else c :: fixNullQuotes fuel rest
        | [] => c :: fixNullQuotes fuel rest
      else c :: fixNullQuotes fuel rest
    else c :: fixNullQuotes fuel rest

/-- `.replace(/:\s*""\s*([,}])/g, ':"empty"$1')` -/
def fixEmptyStrings : Nat → List Char → List Char
  | 0, s => s
  | _ + 1, [] => []
  | fuel + 1, c :: rest =>
    if c == ':' then
      match rest.dropWhile jsWS with
      | '"' :: '"' :: r3 =>
        match r3.dropWhile jsWS with
        | d :: r4 =>
          if d == ',' || d == '}' then
            ':' :: '"' :: 'e' :: 'm' :: 'p' :: 't' :: 'y' :: '"' :: d :: fixEmptyStrings fuel r4
          else c :: fixEmptyStrings fuel rest
        | [] => c :: fixEmptyStrings fuel rest
      | _ => c :: fixEmptyStrings fuel rest
    else c :: fixEmptyStrings fuel rest

/-- `.replace(/([^"])\s*(\w+):\s*/g, '$1, "$2": ')` -/
def fixKeysAfterProps : Nat → List Char → List Char
  | 0, s => s
  | _ + 1, [] => []
  | fuel + 1, c :: rest =>
    if !(c == '"') then
      let r2 := rest.dropWhile jsWS
      let (w, r3) := r2.span isWordChar
      if w.isEmpty then c :: fixKeysAfterProps fuel rest
      else
        match r3 with
        | ':' :: r4 =>
          c :: ',' :: ' ' :: '"' :: (w ++ '"' :: ':' :: ' ' ::
            fixKeysAfterProps fuel (r4.dropWhile jsWS))
        | _ => c :: fixKeysAfterProps fuel rest
    else c :: fixKeysAfterProps fuel rest

/-- `.replace(/\{\s*(\w+):\s*/g, '{ "$1": ')` -/
def fixKeysAtStart : Nat → List Char → List Char
  | 0, s => s
  | _ + 1, [] => []
  | fuel + 1, c :: rest =>
    if c == '{' then
      let r2 := rest.dropWhile jsWS
      let (w, r3) := r2.span isWordChar
      if w.isEmpty then c :: fixKeysAtStart fuel rest
      else
        match r3 with
        | ':' :: r4 =>
          '{' :: ' ' :: '"' :: (w ++ '"' :: ':' :: ' ' ::
            fixKeysAtStart fuel (r4.dropWhile jsWS))
        | _ => c :: fixKeysAtStart fuel rest
    else c :: fixKeysAtStart fuel rest

/-- `.replace(/(\w+):\s*(\d+\.\d+)/g, '"$1": "$2"')` -/
def fixDecimalPairs : Nat → List Char → List Char
  | 0, s => s
  | _ + 1, [] => []
  | fuel + 1, c :: rest =>
    if isWordChar c then
      let (w, rest1) := (c :: rest).span isWordChar
      match rest1 with
      | ':' :: r2 =>
        let r3 := r2.dropWhile jsWS
        let (d1, r4) := r3.span isDigitChar
        if d1.isEmpty then c :: fixDecimalPairs fuel rest
        else
          match r4 with
          | '.' :: r5 =>
            let (d2, r6) := r5.span isDigitChar
            if d2.isEmpty then c :: fixDecimalPairs fuel rest
            else
              '"' :: (w ++ '"' :: ':' :: ' ' :: '"' :: (d1 ++ '.' :: d2 ++ '"' ::
                fixDecimalPairs fuel r6))
          | _ => c :: fixDecimalPairs fuel rest
      | _ => c :: fixDecimalPairs fuel rest
    else c :: fixDecimalPairs fuel rest

/-- `.replace(/(\w+):\s*(\d+)/g, '"$1": "$2"')` -/
def fixIntPairs : Nat → List Char → List Char
  | 0, s => s
  | _ + 1, [] => []
  | fuel + 1, c :: rest =>
    if isWordChar c then
      let (w, rest1) := (c :: rest).span isWordChar
      match rest1 with
      | ':' :: r2 =>
        let r3 := r2.dropWhile jsWS
        let (d1, r4) := r3.span isDigitChar
        if d1.isEmpty then c :: fixIntPairs fuel rest
        else
          '"' :: (w ++ '"' :: ':' :: ' ' :: '"' :: (d1 ++ '"' :: fixIntPairs fuel r4))
      | _ => c :: fixIntPairs fuel rest
    else c :: fixIntPairs fuel rest

/-- Attempt 3's transformation chain (lines 122-149), in source order,
ending with `.trim()`. -/
def manualFix (s : List Char) : List Char :=
  let s1 := fixSingleQuotes s
  let s2 := fixUnquotedKeys s1.length s1
  let s3 := fixTrailingCommas s2.length s2
  let s4 := fixBoolQuotes s3.length s3
  let s5 := fixDecimalQuotes s4.length s4
  let s6 := stripControlChars s5
  let s7 := collapseSpaces s6.length s6
  let s8 := fixNullQuotes s7.length s7
  let s9 := fixEmptyStrings s8.length s8
  let s10 := fixKeysAfterProps s9.length s9
  let s11 := fixKeysAtStart s10.length s10
  let s12 := fixDecimalPairs s11.length s11
  let s13 := fixIntPairs s12.length s12
  trimJS s13

/-! ### Layer 4: field-level pattern extraction (attempt 4, lines 156-267)

Each field tries an ordered list of regexes against the *original* raw
content via `content.match(p)`, i.e. the first position (scanning left to
right) where the pattern matches.  A matcher at a position returns
`match[0]` (the consumed text) and `match[1]` (the first capture, when the
pattern has one). -/

/-- `(match[0], match[1])` of a successful regex match. -/
abbrev MatchRes := List Char × Option (List Char)

/-- `content.match(p)`: try the position matcher at every index, leftmost
match wins. -/
def scanFor (m : List Char → Option MatchRes) : List Char → Option MatchRes
  | [] => m []
  | c :: rest =>
    match m (c :: rest) with
    | some r => some r
    | none => scanFor m rest

/-- Case-insensitive literal (pattern given in lower case); returns the rest. -/
def matchLitCI (pat s : List Char) : Option (List Char) :=
  if startsWithCI pat s then some (s.drop pat.length) else none

/-- The common prelude `key["\s]*:` of the field regexes, followed by the
maximal `["\s]*` run: returns `(run, tail)` with `run` the maximal run of
quote/whitespace characters after the colon and `tail` the rest.  Both
`["\s]*` runs before and after the `:` are forced maximal because the class
does not contain `:` or the first character of any follow-up alternative
that starts outside the class. -/
def afterKeyColonRun (key s : List Char) : Option (List Char × List Char) :=
  match matchLitCI key s with
  | none => none
  | some r1 =>
    match r1.dropWhile qws with
    | ':' :: r3 => some (r3.span qws)
    | _ => none

/-- `key["\s]*:["\s]*(true|false)` (case-insensitive). -/
def kvBoolAt (key s : List Char) : Option MatchRes :=
  match afterKeyColonRun key s with
  | some (_, tail) =>
    if startsWithCI ['t', 'r', 'u', 'e'] tail then
      some (consumedTo s (tail.drop 4), some (tail.take 4))
    else if startsWithCI ['f', 'a', 'l', 's', 'e'] tail then
      some (consumedTo s (tail.drop 5), some (tail.take 5))
    else none
  | none => none

/-- `key["\s]*:["\s]*"?(true|false)"?`: the optional opening quote is
absorbed by the `["\s]*` run, the optional closing quote extends
`match[0]`. -/
def kvBoolOptQAt (key s : List Char) : Option MatchRes :=
  match afterKeyColonRun key s with
  | some (_, tail) =>
    let fin : Nat → Option MatchRes := fun n =>
      let r := tail.drop n
      let r2 := match r with
        | '"' :: rr => rr
        | _ => r
      some (consumedTo s r2, some (tail.take n))
    if startsWithCI ['t', 'r', 'u', 'e'] tail then fin 4
    else if startsWithCI ['f', 'a', 'l', 's', 'e'] tail then fin 5
    else none
  | none => none

/-- The class `[^",\s}]`. -/
def bareValueClass (c : Char) : Bool :=
  !(c == '"') && !(c == ',') && !(jsWS c) && !(c == '}')

/-- `key["\s]*:["\s]*([^",\s}]+)`. -/
def kvBareAt (key s : List Char) : Option MatchRes :=
  match afterKeyColonRun key s with
  | some (_, tail) =>
    let (v, r) := tail.span bareValueClass
    if v.isEmpty then none else some (consumedTo s r, some v)
  | none => none

/-- `key["\s]*:["\s]*null` (case-insensitive, no capture group). -/
def kvNullAt (key s : List Char) : Option MatchRes :=
  match afterKeyColonRun key s with
  | some (_, tail) =>
    if startsWithCI ['n', 'u', 'l', 'l'] tail then
      some (consumedTo s (tail.drop 4), none)
    else none
  | none => none

/-- For a fragment `["\s]*"` followed by a value matcher: JS greedy
backtracking yields the largest prefix of the maximal `["\s]` run `run`
whose next character is `"` and whose remainder satisfies `ok`; the result
is that remainder (the text after the consumed quote). -/
def pickQuoteSplit (ok : List Char → Bool) : List Char → List Char → Option (List Char)
  | [], _ => none
  | c :: run, tail =>
    match pickQuoteSplit ok run tail with
    | some r => some r
    | none => if c == '"' && ok (run ++ tail) then some (run ++ tail) else none

/-- `key["\s]*:["\s]*"([^"]+)"?`. -/
def kvQuotedNonEmptyAt (key s : List Char) : Option MatchRes :=
  match afterKeyColonRun key s with
  | some (run, tail) =>
    let ok : List Char → Bool := fun suf =>
      match suf with
      | d :: _ => !(d == '"')
      | [] => false
    match pickQuoteSplit ok run tail with
    | some suf =>
      let (v, r) := suf.span (fun d => !(d == '"'))
      let r2 := match r with
        | '"' :: rr => rr
        | _ => r
      some (consumedTo s r2, some v)
    | none => none
  | none => none

/-- `key["\s]*:["\s]*"([^"]*)"?` (empty capture allowed). -/
def kvQuotedAnyAt (key s : List Char) : Option MatchRes :=
  match afterKeyColonRun key s with
  | some (run, tail) =>
    match pickQuoteSplit (fun _ => true) run tail with
    | some suf =>
      let (v, r) := suf.span (fun d => !(d == '"'))
      let r2 := match r with
        | '"' :: rr => rr
        | _ => r
      some (consumedTo s r2, some v)
    | none => none
  | none => none

/-- `key["\s]*:["\s]*"([^"]+)"` (closing quote required). -/
def kvQuotedClosedAt (key s : List Char) : Option MatchRes :=
  match afterKeyColonRun key s with
  | some (run, tail) =>
    let ok : List Char → Bool := fun suf =>
      match suf with
      | d :: _ => !(d == '"') && !((suf.span (fun e => !(e == '"'))).2.isEmpty)
      | [] => false
    match pickQuoteSplit ok run tail with
    | some suf =>
      let (v, r) := suf.span (fun d => !(d == '"'))
      match r with
      | '"' :: rr => some (consumedTo s rr, some v)
      | _ => none
    | none => none
  | none => none

/-- The last suffix of the run starting at a non-quote character (used by
`([^"]+)` when the value region runs to the end of the text and the greedy
`["\s]*` must backtrack into its own run). -/
def lastNonQuoteTail : List Char → Option (List Char)
  | [] => none
  | c :: run =>
    match lastNonQuoteTail run with
    | some r => some r
    | none => if !(c == '"') then some (c :: run) else none

/-- `key["\s]*:["\s]*([^"]+)`: the value class overlaps the run class
(whitespace), so when the text ends inside the run the greedy prefix
backtracks to the last non-quote character of the run. -/
def kvNonQuoteAt (key s : List Char) : Option MatchRes :=
  match afterKeyColonRun key s with
  | some (run, tail) =>
    match tail with
    | _ :: _ =>
      let (v, r) := tail.span (fun d => !(d == '"'))
      some (consumedTo s r, some v)
    | [] =>
      match lastNonQuoteTail run with
      | some suf =>
        let (v, r) := suf.span (fun d => !(d == '"'))
        some (consumedTo s r, some v)
      | none => none
  | none => none

def isNumDotChar (c : Char) : Bool := isDigitChar c || c == '.'

/-- `key["\s]*:["\s]*([0-9.]+)`. -/
def kvNumAt (key s : List Char) : Option MatchRes :=
  match afterKeyColonRun key s with
  | some (_, tail) =>
    let (v, r) := tail.span isNumDotChar
    if v.isEmpty then none else some (consumedTo s r, some v)
  | none => none

/-- `key["\s]*:["\s]*([0-9]+)`. -/
def kvIntAt (key s : List Char) : Option MatchRes :=
  match afterKeyColonRun key s with
  | some (_, tail) =>
    let (v, r) := tail.span isDigitChar
    if v.isEmpty then none else some (consumedTo s r, some v)
  | none => none

/-- `key["\s]*:["\s]*"([0-9.]+)"`. -/
def kvNumQuotedAt (key s : List Char) : Option MatchRes :=
  match afterKeyColonRun key s with
  | some (run, tail) =>
    let ok : List Char → Bool := fun suf =>
      match suf with
      | d :: _ =>
        isNumDotChar d &&
          (match (suf.span isNumDotChar).2 with
           | '"' :: _ => true
           | _ => false)
      | [] => false
    match pickQuoteSplit ok run tail with
    | some suf =>
      let (v, r) := suf.span isNumDotChar
      match r with
      | '"' :: rr => some (consumedTo s rr, some v)
      | _ => none
    | none => none
  | none => none

def hvKey : List Char := "has_age_verification".data

def vtKey : List Char := "verification_type".data

def csKey : List Char := "confidence_score".data

def confKey : List Char := "confidence".data

def dtKey : List Char := "details".data

/-- First matching pattern of `hasVerificationPatterns` (lines 161-166). -/
def hvFirstMatch (content : List Char) : Option MatchRes :=
  match scanFor (kvBoolAt hvKey) content with
  | some r => some r
  | none =>
    match scanFor (kvBoolOptQAt hvKey) content with
    | some r => some r
    | none =>
      match scanFor (kvBareAt hvKey) content with
      | some r => some r
      | none => scanFor (kvNullAt hvKey) content

/-- Lines 168-179: classification of the first `has_age_verification`
match. -/
def extractHasVerif (content : List Char) : Option Bool :=
  match hvFirstMatch content with
  | none => none
  | some (m0, m1) =>
    if hasSubChars ['n', 'u', 'l', 'l'] m0 then some false
    else
      match m1 with
      | some cap =>
        let v := lcChars cap
        some (v == "true".data || v == "yes".data || v == "1".data)
      | none => some false

/-- First matching pattern of `verificationTypePatterns` (lines 182-187). -/
def vtFirstMatch (content : List Char) : Option MatchRes :=
  match scanFor (kvQuotedNonEmptyAt vtKey) content with
  | some r => some r
  | none =>
    match scanFor (kvBareAt vtKey) content with
    | some r => some r
    | none =>
      match scanFor (kvQuotedAnyAt vtKey) content with
      | some r => some r
      | none => scanFor (kvNullAt vtKey) content

/-- Lines 189-199: a match with a falsy capture breaks out of the loop
without recording a value (result `none`). -/
def extractVerifType (content : List Char) : Option String :=
  match vtFirstMatch content with
  | none => none
  | some (m0, m1) =>
    if hasSubChars ['n', 'u', 'l', 'l'] m0 then some "none"
    else
      match m1 with
      | some cap =>
        if cap.isEmpty then none
        else some (String.mk (trimJS (cap.filter (fun c => !(c == '"')))))
      | none => none

/-- `parseFloat` restricted to a `[0-9.]+` capture: the longest prefix of
shape `\d+(\.\d*)?` or `\.\d+`, `none` for NaN. -/
def jsParseFloat (cap : List Char) : Option ℚ :=
  match cap with
  | '.' :: r =>
    let (d2, _) := r.span isDigitChar
    if d2.isEmpty then none
    else some ((digitsToNat d2 : ℚ) / (10 : ℚ) ^ d2.length)
  | _ =>
    let (d1, r) := cap.span isDigitChar
    if d1.isEmpty then none
    else
      match r with
      | '.' :: r2 =>
        let (d2, _) := r2.span isDigitChar
        some ((digitsToNat d1 : ℚ) + (digitsToNat d2 : ℚ) / (10 : ℚ) ^ d2.length)
      | _ => some (digitsToNat d1 : ℚ)

/-- One iteration of the confidence loop (lines 209-222): parse the capture,
normalize `> 1` by dividing by 100, keep only values in `[0, 1]`; any
failure falls through to the next pattern. -/
def confAttempt (m : List Char → Option MatchRes) (content : List Char) : Option ℚ :=
  match scanFor m content with
  | some (_, some cap) =>
    match jsParseFloat cap with
    | some score =>
      let n := if 1 < score then score / 100 else score
      if 0 ≤ n ∧ n ≤ 1 then some n else none
    | none => none
  | _ => none

/-- The `confidencePatterns` chain (lines 202-222). -/
def extractConfidence (content : List Char) : Option ℚ :=
  match confAttempt (kvNumAt csKey) content with
  | some q => some q
  | none =>
    match confAttempt (kvNumQuotedAt csKey) content with
    | some q => some q
    | none =>
      match confAttempt (kvNumAt confKey) content with
      | some q => some q
      | none => confAttempt (kvIntAt csKey) content

/-- One iteration of the details loop (lines 231-237): only a match with a
truthy capture records a value; otherwise the next pattern is tried. -/
def detAttempt (m : List Char → Option MatchRes) (content : List Char) : Option String :=
  match scanFor m content with
  | some (_, some cap) =>
    if cap.isEmpty then none
    else some (String.mk (trimJS (cap.filter (fun c => !(c == '"')))))
  | _ => none

/-- The `detailsPatterns` chain (lines 225-237). -/
def extractDetails (content : List Char) : Option String :=
  match detAttempt (kvQuotedClosedAt dtKey) content with
  | some s => some s
  | none =>
    match detAttempt (kvNonQuoteAt dtKey) content with
    | some s => some s
    | none => detAttempt (kvQuotedAnyAt dtKey) content

/-- Lines 242-246: infer detection from trigger phrases when no explicit
field matched. -/
def inferVerification (content : List Char) : Bool :=
  let lc := lcChars content
  hasSubChars "age verification".data lc || hasSubChars "birth date".data lc ||
  hasSubChars "age gate".data lc || hasSubChars "verification".data lc

/-- The key-value record attempt 4 builds; after the default-filling steps
all four fields are present. -/
structure KeyValuePairs where
  has_age_verification : Bool
  verification_type : String
  confidence_score : ℚ
  details : String

/-- Attempt 4 (lines 156-264): field extraction followed by default filling.
`has_age_verification` is defaulted only when *absent* (`=== undefined`);
the other three fields are defaulted whenever *falsy* (absent, `0`, or the
empty string). -/
def attempt4 (content : List Char) : KeyValuePairs :=
  let hv0 := extractHasVerif content
  let vt0 := extractVerifType content
  let cs0 := extractConfidence content
  let dt0 := extractDetails content
  let hv : Bool :=
    match hv0 with
    | some b => b
    | none => inferVerification content
  let vt : String :=
    match vt0 with
    | some t => if t = "" then (if hv then "detected" else "none") else t
    | none => if hv then "detected" else "none"
  let cs : ℚ :=
    match cs0 with
    | some q => if q = 0 then (if hv then 0.7 else 0.5) else q
    | none => if hv then 0.7 else 0.5
  let dt : String :=
    match dt0 with
    | some s => if s = "" then "Parsed from AI response" else s
    | none => "Parsed from AI response"
  { has_age_verification := hv, verification_type := vt,
    confidence_score := cs, details := dt }

def KeyValuePairs.toFields (kv : KeyValuePairs) : List (String × JVal) :=
  [("has_age_verification", .bool kv.has_age_verification),
   ("verification_type", .str kv.verification_type),
   ("confidence_score", .num kv.confidence_score),
   ("details", .str kv.details)]

/-- The final raw-content fallback of `parseRobustJSON` (lines 272-289);
unreachable in practice because attempt 4 always returns a non-empty
object, but part of the function. -/
def finalFallback (content : List Char) : JVal :=
  let lc := lcChars content
  let hv := hasSubChars "age verification".data lc || hasSubChars "birth date".data lc ||
    hasSubChars "age gate".data lc || hasSubChars "verification".data lc ||
    hasSubChars "over 18".data lc || hasSubChars "adult content".data lc
  .obj [("has_age_verification", .bool hv),
        ("verification_type", .str (if hv then "detected" else "none")),
        ("confidence_score", .num (if hv then 0.6 else 0.4)),
        ("details", .str "Parsed from raw content analysis")]

/-! ### `parseRobustJSON` (lines 79-298)

`repair` models the external `jsonrepair` library (layer 2); `none` models
a throw.  Each `jsonParse` returning `none` models `JSON.parse` throwing,
which advances to the next attempt. -/

def parseRobustJSON (repair : String → Option String) (content : String) : Option JVal :=
  match extractJsonSpan content.data with
  | none => none
  | some jsonString =>
    let pre := preProcess jsonString
    match jsonParse pre with
    | some v => some v
    | none =>
      match (repair (String.mk pre)).bind (fun r => jsonParse r.data) with
      | some v => some v
      | none =>
        match jsonParse (manualFix pre) with
        | some v => some v
        | none =>
          let kv := attempt4 content.data
          if decide (0 < kv.toFields.length) then some (.obj kv.toFields)
          else some (finalFallback content.data)

/-! ### The batched dispatcher (`POST`, lines 300-515)

Nondeterminism of the outside world is captured by an environment oracle:
`chat` gives the outcome of the Ollama call for a prompt and (0-based)
attempt index; the `elapsedAt*` fields give the value of
`Date.now() - startTime` at each of the three `checkTimeout()` call sites
(keyed by call site, so the model is independent of the interleaving of the
concurrent per-target loops); `repair` is the external `jsonrepair`
library; `nowISO` is `new Date().toISOString()`. -/

structure WebsiteData where
  url : String
  name : Option String
  category : Option String
deriving DecidableEq

/-- One produced audit record.  The four content fields are `JVal` because
the JS object spread can put non-`AuditResult`-typed values (e.g. the
string `"true"`) into them despite the TypeScript annotation. -/
structure AuditResult where
  website : String
  has_age_verification : JVal
  verification_type : JVal
  confidence_score : JVal
  details : JVal
  timestamp : String
  name : Option String
  category : Option String

inductive ChatOutcome where
  | success : String → ChatOutcome
  | failure : String → ChatOutcome

structure Env where
  healthOk : Bool
  healthErrMsg : String
  chat : String → Nat → ChatOutcome
  elapsedAtAttempt : String → Nat → Nat
  elapsedAtWaveStart : Nat → Nat
  elapsedAtWaveEnd : Nat → Nat
  nowISO : String
  repair : String → Option String

structure OllamaConfig where
  host : String
  timeout : Nat
  maxRetries : Nat
  healthCheckTimeout : Nat
  batchSize : Nat
  maxTotalTime : Nat
  enableTotalTimeout : Bool

/-- Lines 6-16. -/
def OLLAMA_CONFIG : OllamaConfig :=
  { host := "http://localhost:11434", timeout := 60000, maxRetries := 2,
    healthCheckTimeout := 10000, batchSize := 3, maxTotalTime := 600000,
    enableTotalTimeout := true }

/-- `checkTimeout` (lines 316-324): returns `true` when it would throw. -/
def checkTimeoutTrips (elapsed : Nat) : Bool :=
  if !OLLAMA_CONFIG.enableTotalTimeout || decide (OLLAMA_CONFIG.maxTotalTime ≤ 0) then false
  else decide (OLLAMA_CONFIG.maxTotalTime < elapsed)

/-- The message of the error `checkTimeout` throws. -/
def timeoutMsg : String :=
  "Audit process timed out after " ++ toString (OLLAMA_CONFIG.maxTotalTime / 1000) ++ " seconds"

/-- Lines 48-71 (`{` and `}` written as `\x7b`/`\x7d`). -/
def AGE_VERIFICATION_PROMPT : String :=
  "Analyze the following website for age verification mechanisms. \n\nWebsite: \x7burl\x7d\nCategory: \x7bcategory\x7d\n\nPlease determine if this website has age verification requirements and what type of verification is used.\n\nConsider:\n- Age verification popups or overlays\n- Birth date input fields\n- Age confirmation checkboxes\n- Credit card requirements\n- Government ID requirements\n- Terms of service age restrictions\n- Content warnings or age gates\n\nIMPORTANT: Respond ONLY with valid JSON in this exact format. Use double quotes for all strings and property names. Do not include any text before or after the JSON:\n\n\x7b\n  \"has_age_verification\": true,\n  \"verification_type\": \"popup\",\n  \"confidence_score\": 0.8,\n  \"details\": \"Detailed explanation of findings\"\n\x7d"

/-- Lines 357-359: `.replace` substitutes the first occurrence only;
`website.category || 'Unknown'` also maps the empty string to "Unknown". -/
def mkPrompt (w : WebsiteData) : String :=
  let cat :=
    match w.category with
    | some c => if c = "" then "Unknown" else c
    | none => "Unknown"
  replaceOnce (replaceOnce AGE_VERIFICATION_PROMPT "\x7burl\x7d" w.url) "\x7bcategory\x7d" cat

/-- Trace of one target's retry loop: number of `ollama.chat` calls made,
the back-off sleeps performed (in ms, in order), and the final outcome. -/
structure AttemptTrace where
  attempts : Nat
  sleeps : List Nat
  outcome : Except String String

/-- The `while (retryCount <= maxRetries)` loop (lines 363-400).
`rc` is the current `retryCount`; `left = maxRetries + 1 - rc` is the
number of loop iterations still permitted, used as structural fuel (the
`left = 0` case corresponds to the loop exiting without a response, which
cannot happen from `rc = 0`).  A failed attempt sleeps
`1000 * retryCount` ms after the increment, i.e. `1000 * (rc + 1)`. -/
def runAttemptsGo (env : Env) (prompt : String) : Nat → Nat → AttemptTrace
  | 0, _ => ⟨0, [], .error "no response"⟩
  | left + 1, rc =>
    if checkTimeoutTrips (env.elapsedAtAttempt prompt rc) then ⟨0, [], .error timeoutMsg⟩
    else
      match env.chat prompt rc with
      | .success content => ⟨1, [], .ok content⟩
      | .failure msg =>
        if decide (OLLAMA_CONFIG.maxRetries < rc + 1) then
          ⟨1, [], .error ("Ollama request failed after " ++ toString OLLAMA_CONFIG.maxRetries ++
            " retries: Error: " ++ msg)⟩
        else
          let t := runAttemptsGo env prompt left (rc + 1)
          ⟨t.attempts + 1, 1000 * (rc + 1) :: t.sleeps, t.outcome⟩

def runAttempts (env : Env) (w : WebsiteData) : AttemptTrace :=
  runAttemptsGo env (mkPrompt w) (OLLAMA_CONFIG.maxRetries + 1) 0

/-- Lines 461-466. -/
def isTimeoutErrorMsg (e : String) : Bool :=
  strIncludes e "timeout" || strIncludes e "timed out" ||
  strIncludes e "ETIMEDOUT" || strIncludes e "ENOTFOUND"

/-- The record built by the per-target `catch` (lines 468-479). -/
def errorRecord (env : Env) (w : WebsiteData) (e : String) : AuditResult :=
  { website := w.url
    has_age_verification := .bool false
    verification_type := .str (if isTimeoutErrorMsg e then "timeout" else "error")
    confidence_score := .num 0
    details := .str (if isTimeoutErrorMsg e then
        "Request timed out - Ollama service may be overloaded or unavailable"
      else "Error: " ++ e)
    timestamp := env.nowISO
    name := w.name
    category := w.category }

/-- Lines 425-428: the dispatcher-side trigger-phrase check used when
`parseRobustJSON` returned a falsy value. -/
def fallbackHasVerif (content : String) : Bool :=
  let lc := lcString content
  strIncludes lc "age verification" || strIncludes lc "birth date" ||
  strIncludes lc "age gate" || strIncludes lc "verification"

/-- The record of the dispatcher's non-JSON fallback branch
(lines 430-439). -/
def fallbackResult (env : Env) (w : WebsiteData) (content : String) : AuditResult :=
  let hv := fallbackHasVerif content
  { website := w.url
    has_age_verification := .bool hv
    verification_type := .str (if hv then "detected" else "none")
    confidence_score := .num (if hv then 0.7 else 0.5)
    details := .str content
    timestamp := env.nowISO
    name := w.name
    category := w.category }

/-- Lines 402-440: build the `AuditResult` from a successful response body.
(The inner `catch` of lines 441-454 is unreachable: `parseRobustJSON` and
the fallback branch cannot throw.) -/
def buildResult (env : Env) (w : WebsiteData) (content : String) : AuditResult :=
  match parseRobustJSON env.repair content with
  | some parsed =>
    if parsed.truthy then
      { website := w.url
        has_age_verification := jOr (parsed.getField "has_age_verification") (.bool false)
        verification_type := jOr (parsed.getField "verification_type") (.str "unknown")
        confidence_score := jOr (parsed.getField "confidence_score") (.num 0)
        details := jOr (parsed.getField "details") (.str "No details provided")
        timestamp := env.nowISO
        name := w.name
        category := w.category }
    else fallbackResult env w content
  | none => fallbackResult env w content

/-- One target inside a wave (lines 355-481): the whole body is wrapped in
a `try` whose `catch` builds `errorRecord`; every target therefore yields
exactly one record. -/
def processWebsite (env : Env) (w : WebsiteData) : AuditResult :=
  match (runAttempts env w).outcome with
  | .ok content => buildResult env w content
  | .error e => errorRecord env w e

structure LoopOut where
  outcome : Except String (List AuditResult)
  chatCalls : Nat

/-- The batch loop (lines 349-490).  `k` is the wave index; `checkTimeout`
is consulted before each wave is launched and again after it settles; a
trip throws `timeoutMsg`, escaping to the route-level `catch`.  Each wave
is `websites.slice(i, i + batchSize)` and `Promise.all` collects its
records in input order.  Fuel is the remaining list length (each wave
consumes at least one target); `POST` passes exactly `websites.length`. -/
def processLoop (env : Env) : Nat → List WebsiteData → Nat → List AuditResult → Nat → LoopOut
  | _, [], _, acc, calls => ⟨.ok acc, calls⟩
  | 0, _ :: _, _, _acc, calls => ⟨.error "out of fuel", calls⟩
  | fuel + 1, w :: ws, k, acc, calls =>
    if checkTimeoutTrips (env.elapsedAtWaveStart k) then ⟨.error timeoutMsg, calls⟩
    else
      let batch := (w :: ws).take OLLAMA_CONFIG.batchSize
      let rest := (w :: ws).drop OLLAMA_CONFIG.batchSize
      let batchResults := batch.map (processWebsite env)
      let calls2 := calls + (batch.map (fun x => (runAttempts env x).attempts)).sum
      if checkTimeoutTrips (env.elapsedAtWaveEnd k) then ⟨.error timeoutMsg, calls2⟩
      else processLoop env fuel rest (k + 1) (acc ++ batchResults) calls2

/-- The observable outcomes of the route handler: a JSON response returned
by the route itself (a success body, or an error body the route built),
or an exception escaping the handler (`uncaught`), which the framework -
not the route - turns into a generic 500 with no route-built body. -/
inductive ApiResponse where
  | success : List AuditResult → Nat → Nat → ApiResponse
  | errorResp : Nat → String → String → ApiResponse
  | uncaught : String → ApiResponse

/-- The HTTP status the client observes; an exception escaping the handler
is surfaced by the framework as a generic 500. -/
def ApiResponse.statusCode : ApiResponse → Nat
  | .success _ _ _ => 200
  | .errorResp s _ _ => s
  | .uncaught _ => 500

def ApiResponse.resultsOf : ApiResponse → Option (List AuditResult)
  | .success rs _ _ => some rs
  | .errorResp _ _ _ => none
  | .uncaught _ => none

def ApiResponse.isSuccessB : ApiResponse → Bool
  | .success _ _ _ => true
  | .errorResp _ _ _ => false
  | .uncaught _ => false

def ApiResponse.isUncaughtB : ApiResponse → Bool
  | .uncaught _ => true
  | .success _ _ _ => false
  | .errorResp _ _ _ => false

/-- The route-level `catch` block (lines 499-514).  It computes `isTimeout`
from the caught error and begins building the intended 408/500 JSON body,
whose properties are evaluated in order: `error`, `details`, then
`processedWebsites: results?.length || 0` (line 509).  But `results` and
`websites` are `const`-declared *inside* the `try` (lines 346 and 303)
and are not in scope in the catch block, and optional chaining does not
guard an undeclared identifier: evaluating `results?.length` throws a
ReferenceError before `NextResponse.json` is ever called.  The handler
therefore ends with an exception escaping the catch; the intended
408 "Audit process timed out" body is unreachable and the caught error's
message is never observable in the response. -/
def routeCatch (e : String) : ApiResponse :=
  let _isTimeout := strIncludes e "timed out"
  .uncaught "ReferenceError: results is not defined"

/-- `POST` (lines 300-515): empty-input check, health probe, batch loop;
an error thrown by a wave-boundary `checkTimeout` lands in the
route-level catch, which itself throws (see `routeCatch`). -/
def POST (env : Env) (websites : List WebsiteData) : ApiResponse :=
  if websites.isEmpty then .errorResp 400 "No websites provided" ""
  else if !env.healthOk then
    .errorResp 503
      "Ollama service not available or not responding. Please ensure Ollama is running with: ollama serve"
      env.healthErrMsg
  else
    match (processLoop env websites.length websites 0 [] 0).outcome with
    | .ok results => .success results websites.length results.length
    | .error e => routeCatch e

/-- Number of `ollama.chat` calls a run performs, mirroring `POST`'s
control flow. -/
def POSTchatCalls (env : Env) (websites : List WebsiteData) : Nat :=
  if websites.isEmpty then 0
  else if !env.healthOk then 0
  else (processLoop env websites.length websites 0 [] 0).chatCalls

/-- No wave-boundary `checkTimeout` call ever trips in `env`. -/
def Env.noBoundaryTrip (env : Env) : Prop :=
  ∀ k, checkTimeoutTrips (env.elapsedAtWaveStart k) = false ∧
    checkTimeoutTrips (env.elapsedAtWaveEnd k) = false

/-! ### Concrete targets, environments and response texts used to
instantiate the theorems -/

def wSiteA : WebsiteData := ⟨"https://a.example", none, none⟩

def wSiteB : WebsiteData := ⟨"https://b.example", some "Site B", some "Gaming"⟩

def wSiteC : WebsiteData := ⟨"https://c.example", none, none⟩

def wSiteD : WebsiteData := ⟨"https://d.example", none, none⟩

/-- A healthy service; every call instantly succeeds with an unstructured
text; all clocks read 0. -/
def envBase : Env :=
  { healthOk := true
    healthErrMsg := ""
    chat := fun _ _ => .success "no structure here"
    elapsedAtAttempt := fun _ _ => 0
    elapsedAtWaveStart := fun _ => 0
    elapsedAtWaveEnd := fun _ => 0
    nowISO := "2026-01-01T00:00:00.000Z"
    repair := fun _ => none }

/-- The global budget (600 000 ms) is found exceeded at the boundary check
before wave 1 (i.e. after the first wave completed). -/
def envBudget : Env :=
  { envBase with elapsedAtWaveStart := fun k => if k = 0 then 0 else 700000 }

/-- The budget is already exceeded before wave 0. -/
def envTrip0 : Env :=
  { envBase with elapsedAtWaveStart := fun _ => 700000 }

/-- The liveness probe failed. -/
def envDown : Env :=
  { envBase with healthOk := false, healthErrMsg := "Ollama health check timed out" }

/-- Every call fails with a generic error. -/
def envBoom : Env :=
  { envBase with chat := fun _ _ => .failure "boom" }

/-- Every call fails with a connection-refused error. -/
def envRefused : Env :=
  { envBase with chat := fun _ _ => .failure "connect ECONNREFUSED 127.0.0.1:11434" }

/-- The error message the retry loop throws in `envBoom`. -/
def eBoom : String := "Ollama request failed after 2 retries: Error: boom"

/-- The error message the retry loop throws in `envRefused`. -/
def eRefused : String :=
  "Ollama request failed after 2 retries: Error: connect ECONNREFUSED 127.0.0.1:11434"

/-- A perfectly well-formed model response whose confidence is the
percentage 95. -/
def contentStrict95 : String :=
  "\x7b\"has_age_verification\": true, \"verification_type\": \"popup\", \"confidence_score\": 95, \"details\": \"x\"\x7d"

/-- A malformed-but-JSON-like response: all four expected keys, all values
bare (unquoted). -/
def contentMalformed : String :=
  "\x7bhas_age_verification: true, verification_type: popup, confidence_score: 0.8, details: ok\x7d"

/-- The braceless example text of the specification. -/
def contentBraceless : String :=
  "headers: confidence_score: 0.95, has_age_verification: true"

/-- A brace span whose explicit confidence is 0. -/
def contentZeroConf : String := "\x7bconfidence_score: 0\x7d"

/-- A raw text carrying a percentage confidence, for layer-4 extraction. -/
def conf95str : String := "confidence_score: 95"

def digitChar (d : Fin 10) : Char := Char.ofNat (48 + d.val)

/-- The family of malformed responses with all four expected keys, a bare
boolean detection value and a bare decimal confidence `0.d`. -/
def mkMalformed (b : Bool) (d : Fin 10) : String :=
  "\x7bhas_age_verification: " ++ (if b then "true" else "false") ++
  ", verification_type: popup, confidence_score: 0." ++ String.mk [digitChar d] ++
  ", details: checked\x7d"

/-! ### Helper lemmas -/

attribute [local semireducible] Rat.mul Rat.inv Rat.add Rat.ofScientific

/-- Every produced record carries the originating target's url, on every
path (parsed, fallback, error). -/
theorem processWebsite_website (env : Env) (w : WebsiteData) :
    (processWebsite env w).website = w.url := by
  unfold processWebsite
  split
  · unfold buildResult
    split
    · split <;> rfl
    · rfl
  · rfl

/-- If a target's retry loop ends in an error, the target still yields the
catch-branch record. -/
theorem processWebsite_of_error (env : Env) (w : WebsiteData) (e : String)
    (h : (runAttempts env w).outcome = .error e) :
    processWebsite env w = errorRecord env w e := by
  unfold processWebsite
  rw [h]

/-- When no wave-boundary budget check trips, the batch loop returns one
record per target, appended in input order. -/
theorem processLoop_ok (env : Env) (htrip : env.noBoundaryTrip) :
    ∀ (fuel : Nat) (ws : List WebsiteData) (k : Nat) (acc : List AuditResult) (calls : Nat),
      ws.length ≤ fuel →
      (processLoop env fuel ws k acc calls).outcome =
        .ok (acc ++ ws.map (processWebsite env)) := by
  intro fuel
  induction fuel with
  | zero =>
    intro ws k acc calls hle
    cases ws with
    | nil => simp [processLoop]
    | cons w ws' => simp at hle
  | succ n ih =>
    intro ws k acc calls hle
    cases ws with
    | nil => simp [processLoop]
    | cons w ws' =>
      have h1 := (htrip k).1
      have h2 := (htrip k).2
      simp only [processLoop, h1, Bool.false_eq_true, if_false, h2]
      rw [ih]
      · rw [List.append_assoc, ← List.map_append, List.take_append_drop]
      · rw [List.length_drop]
        have hb : OLLAMA_CONFIG.batchSize = 3 := rfl
        rw [hb]
        simp only [List.length_cons] at hle ⊢
        omega

/-- Conversely, whenever the batch loop reports success, its record list is
exactly the input's image under `processWebsite`, in order. -/
theorem processLoop_ok_inv (env : Env) :
    ∀ (fuel : Nat) (ws : List WebsiteData) (k : Nat) (acc : List AuditResult)
      (calls : Nat) (rs : List AuditResult), ws.length ≤ fuel →
      (processLoop env fuel ws k acc calls).outcome = .ok rs →
      rs = acc ++ ws.map (processWebsite env) := by
  intro fuel
  induction fuel with
  | zero =>
    intro ws k acc calls rs hle h
    cases ws with
    | nil =>
      simp only [processLoop, Except.ok.injEq] at h
      simp [← h]
    | cons w ws' => simp at hle
  | succ n ih =>
    intro ws k acc calls rs hle h
    cases ws with
    | nil =>
      simp only [processLoop, Except.ok.injEq] at h
      simp [← h]
    | cons w ws' =>
      cases h1 : checkTimeoutTrips (env.elapsedAtWaveStart k) with
      | true => simp [processLoop, h1] at h
      | false =>
        cases h2 : checkTimeoutTrips (env.elapsedAtWaveEnd k) with
        | true => simp [processLoop, h1, h2] at h
        | false =>
          simp only [processLoop, h1, Bool.false_eq_true, if_false, h2] at h
          have hrec := ih ((w :: ws').drop OLLAMA_CONFIG.batchSize) (k + 1)
            (acc ++ ((w :: ws').take OLLAMA_CONFIG.batchSize).map (processWebsite env)) _ rs
            (by rw [List.length_drop]
                have hb : OLLAMA_CONFIG.batchSize = 3 := rfl
                rw [hb]
                simp only [List.length_cons] at hle ⊢
                omega) h
          rw [hrec, List.append_assoc, ← List.map_append, List.take_append_drop]

/-- The only error the batch loop can raise (with sufficient fuel) is the
`checkTimeout` timeout. -/
theorem processLoop_error_msg (env : Env) :
    ∀ (fuel : Nat) (ws : List WebsiteData) (k : Nat) (acc : List AuditResult)
      (calls : Nat) (m : String), ws.length ≤ fuel →
      (processLoop env fuel ws k acc calls).outcome = .error m → m = timeoutMsg := by
  intro fuel
  induction fuel with
  | zero =>
    intro ws k acc calls m hle h
    cases ws with
    | nil => simp [processLoop] at h
    | cons w ws' => simp at hle
  | succ n ih =>
    intro ws k acc calls m hle h
    cases ws with
    | nil => simp [processLoop] at h
    | cons w ws' =>
      cases h1 : checkTimeoutTrips (env.elapsedAtWaveStart k) with
      | true =>
        simp only [processLoop, h1, if_true, Except.error.injEq] at h
        exact h.symm
      | false =>
        cases h2 : checkTimeoutTrips (env.elapsedAtWaveEnd k) with
        | true =>
          simp only [processLoop, h1, Bool.false_eq_true, if_false, h2, if_true,
            Except.error.injEq] at h
          exact h.symm
        | false =>
          simp only [processLoop, h1, Bool.false_eq_true, if_false, h2] at h
          exact ih _ _ _ _ _
            (by rw [List.length_drop]
                have hb : OLLAMA_CONFIG.batchSize = 3 := rfl
                rw [hb]
                simp only [List.length_cons] at hle ⊢
                omega) h

/-- The retry loop makes at most `left` call attempts. -/
theorem runAttemptsGo_attempts_le (env : Env) (p : String) :
    ∀ (left rc : Nat), (runAttemptsGo env p left rc).attempts ≤ left := by
  intro left
  induction left with
  | zero => intro rc; simp [runAttemptsGo]
  | succ n ih =>
    intro rc
    simp only [runAttemptsGo]
    split
    · simp
    · split
      · simp
      · split
        · simp
        · simpa using Nat.succ_le_succ (ih (rc + 1))

/-- The sleeps performed by the retry loop from `retryCount = rc` are
`1000 * (rc + 1), 1000 * (rc + 2), …` in order. -/
theorem runAttemptsGo_sleeps (env : Env) (p : String) :
    ∀ (left rc : Nat), (runAttemptsGo env p left rc).sleeps =
      (List.range (runAttemptsGo env p left rc).sleeps.length).map
        (fun i => 1000 * (rc + 1 + i)) := by
  intro left
  induction left with
  | zero => intro rc; simp [runAttemptsGo]
  | succ n ih =>
    intro rc
    simp only [runAttemptsGo]
    split
    · simp
    · split
      · simp
      · split
        · simp
        · simp only [List.length_cons, List.range_succ_eq_map, List.map_cons, List.map_map]
          refine List.cons_eq_cons.mpr ⟨by omega, ?_⟩
          conv_lhs => rw [ih (rc + 1)]
          apply List.map_congr_left
          intro a _
          simp only [Function.comp_apply]
          omega

/-- One confidence-pattern attempt only ever produces a value in `[0, 1]`. -/
theorem confAttempt_range (m : List Char → Option MatchRes) (content : List Char) (q : ℚ)
    (h : confAttempt m content = some q) : 0 ≤ q ∧ q ≤ 1 := by
  unfold confAttempt at h
  cases hs : scanFor m content with
  | none => rw [hs] at h; exact absurd h (by simp)
  | some r =>
    obtain ⟨m0, m1⟩ := r
    rw [hs] at h
    cases m1 with
    | none => simp at h
    | some cap =>
      cases hp : jsParseFloat cap with
      | none => simp [hp] at h
      | some score =>
        simp only [hp] at h
        by_cases hr : 0 ≤ (if 1 < score then score / 100 else score) ∧
            (if 1 < score then score / 100 else score) ≤ 1
        · rw [if_pos hr] at h
          simp only [Option.some.injEq] at h
          subst h
          exact hr
        · rw [if_neg hr] at h
          exact absurd h (by simp)

/-! ### The claims -/

/-- Claim C1, counterexample: with four targets and the global time budget
found exceeded at the boundary check before wave 1, the dispatcher stops
launching waves but the run does not return a result set at all - the
thrown timeout lands in the route-level catch, whose response
construction itself throws a ReferenceError (`results`/`websites` are
block-scoped inside the `try`), so the handler ends with an uncaught
error and the undispatched fourth target receives no AuditRecord (in
particular none with kind "timeout" and confidence 0), contradicting the
claim that a result set with synthesized timeout records is returned. -/
theorem c1_budget_exceeded_aborts_with_error :
    POST envBudget [wSiteA, wSiteB, wSiteC, wSiteD] =
      ApiResponse.uncaught "ReferenceError: results is not defined" ∧
    (POST envBudget [wSiteA, wSiteB, wSiteC, wSiteD]).resultsOf.isNone = true ∧
    (POST envBudget [wSiteA, wSiteB, wSiteC, wSiteD]).isSuccessB = false :=
  ⟨rfl, by decide, by decide⟩

/-- Claim C1, amended: when the global time budget (maxTotalTime) is found
exceeded at a wave boundary, the dispatcher stops launching further waves
and the run aborts: the error thrown is the budget-timeout message, it
reaches the route-level catch, and the catch itself throws a
ReferenceError while building its response (`results`/`websites` are
block-scoped inside the `try`), so the handler ends with a single
uncaught error - surfaced by the framework as a generic 500, not the
intended 408 body - and targets not yet dispatched receive no records. -/
theorem c1_amended_budget_exceeded_uncaught_error (env : Env) (ws : List WebsiteData)
    (m : String) (hne : ws ≠ []) (hh : env.healthOk = true)
    (herr : (processLoop env ws.length ws 0 [] 0).outcome = .error m) :
    m = timeoutMsg ∧
    POST env ws = ApiResponse.uncaught "ReferenceError: results is not defined" ∧
    (POST env ws).resultsOf = none := by
  have hm := processLoop_error_msg env ws.length ws 0 [] 0 m le_rfl herr
  have hne' : ws.isEmpty = false := by
    cases ws with
    | nil => exact absurd rfl hne
    | cons a l => rfl
  have hpost : POST env ws =
      ApiResponse.uncaught "ReferenceError: results is not defined" := by
    unfold POST
    rw [hne', hh, herr]
    simp [routeCatch]
  exact ⟨hm, hpost, by rw [hpost]; rfl⟩

/-- Claim C1 amended, witness: a concrete run in which the budget check
before wave 0 already trips. -/
theorem c1_amended_witness :
    [wSiteA] ≠ [] ∧ envTrip0.healthOk = true ∧
    (processLoop envTrip0 [wSiteA].length [wSiteA] 0 [] 0).outcome =
      Except.error timeoutMsg ∧
    POST envTrip0 [wSiteA] = ApiResponse.uncaught "ReferenceError: results is not defined" ∧
    (POST envTrip0 [wSiteA]).resultsOf = none := by
  have h1 : [wSiteA] ≠ ([] : List WebsiteData) := by simp
  have h3 : (processLoop envTrip0 [wSiteA].length [wSiteA] 0 [] 0).outcome =
      Except.error timeoutMsg := rfl
  obtain ⟨_, b, c⟩ :=
    c1_amended_budget_exceeded_uncaught_error envTrip0 [wSiteA] timeoutMsg h1 rfl h3
  exact ⟨h1, rfl, h3, b, c⟩

/-- Claim C2: for every non-empty target list, a healthy service, and a run
in which no wave-boundary budget check trips, the dispatcher returns a
success response whose record list is exactly one record per input target
(any mix of per-target successes, retry-exhausted failures and per-call
timeouts is absorbed into records by the per-target catch). -/
theorem c2_run_returns_one_record_per_target (env : Env) (ws : List WebsiteData)
    (hne : ws ≠ []) (hh : env.healthOk = true) (htrip : env.noBoundaryTrip) :
    (POST env ws).resultsOf = some (ws.map (processWebsite env)) ∧
    (ws.map (processWebsite env)).length = ws.length := by
  refine ⟨?_, by simp⟩
  have hne' : ws.isEmpty = false := by
    cases ws with
    | nil => exact absurd rfl hne
    | cons a l => rfl
  have hloop := processLoop_ok env htrip ws.length ws 0 [] 0 le_rfl
  unfold POST
  rw [hne', hh]
  simp only [Bool.false_eq_true, if_false, Bool.not_true, hloop, List.nil_append]
  rfl

/-- Claim C2, witness: a concrete two-target run. -/
theorem c2_witness :
    [wSiteA, wSiteB] ≠ [] ∧ envBase.healthOk = true ∧ envBase.noBoundaryTrip ∧
    (POST envBase [wSiteA, wSiteB]).resultsOf =
      some ([wSiteA, wSiteB].map (processWebsite envBase)) ∧
    ([wSiteA, wSiteB].map (processWebsite envBase)).length = [wSiteA, wSiteB].length := by
  have h1 : [wSiteA, wSiteB] ≠ ([] : List WebsiteData) := by simp
  have h3 : envBase.noBoundaryTrip := fun _ => ⟨rfl, rfl⟩
  obtain ⟨a, b⟩ := c2_run_returns_one_record_per_target envBase [wSiteA, wSiteB] h1 rfl h3
  exact ⟨h1, rfl, h3, a, b⟩

/-- Claim C3, counterexample: for the well-formed response carrying
`"confidence_score": 95`, the strict parse of layer 1 succeeds and the
produced record keeps confidence 95 - it is neither divided by 100 nor
clamped into `[0, 1]`, contradicting the claim that the normalization
holds on every recovery path including a successful strict JSON parse. -/
theorem c3_strict_parse_confidence_not_clamped :
    (buildResult envBase wSiteA contentStrict95).confidence_score = JVal.num 95 ∧
    ¬((95 : ℚ) ≤ 1) ∧
    ¬((buildResult envBase wSiteA contentStrict95).confidence_score = JVal.num 0.95) := by
  have h1 : (buildResult envBase wSiteA contentStrict95).confidence_score = JVal.num 95 := by
    rfl
  refine ⟨h1, by norm_num, ?_⟩
  rw [h1]
  intro hc
  injection hc with hc'
  norm_num at hc'

/-- Claim C3, amended: the `[0, 1]` normalization (percentages divided by
100, out-of-range extractions discarded) is guaranteed only on the layer-4
field-extraction path: every confidence value layer 4 produces lies in
`[0, 1]`.  A successful strict JSON parse carries the raw value through
unclamped. -/
theorem c3_amended_layer4_confidence_in_unit_interval (content : String) (q : ℚ)
    (h : extractConfidence content.data = some q) : 0 ≤ q ∧ q ≤ 1 := by
  unfold extractConfidence at h
  cases h1 : confAttempt (kvNumAt csKey) content.data with
  | some q1 =>
    rw [h1] at h
    simp only [Option.some.injEq] at h
    subst h
    exact confAttempt_range _ _ _ h1
  | none =>
    rw [h1] at h
    cases h2 : confAttempt (kvNumQuotedAt csKey) content.data with
    | some q2 =>
      rw [h2] at h
      simp only [Option.some.injEq] at h
      subst h
      exact confAttempt_range _ _ _ h2
    | none =>
      rw [h2] at h
      cases h3 : confAttempt (kvNumAt confKey) content.data with
      | some q3 =>
        rw [h3] at h
        simp only [Option.some.injEq] at h
        subst h
        exact confAttempt_range _ _ _ h3
      | none =>
        rw [h3] at h
        exact confAttempt_range _ _ _ h

/-- Claim C3 amended, witness: layer 4 normalizes the percentage 95 to
0.95. -/
theorem c3_amended_witness :
    extractConfidence conf95str.data = some (19 / 20 : ℚ) ∧
    (0 ≤ (19 / 20 : ℚ) ∧ (19 / 20 : ℚ) ≤ 1) := by
  have h : extractConfidence conf95str.data = some (19 / 20 : ℚ) := by decide
  exact ⟨h, c3_amended_layer4_confidence_in_unit_interval conf95str _ h⟩

/-- Claim C4, counterexample: the malformed response with all four expected
keys and unquoted boolean/numeric values is resolved by layer 1, whose
normalizing rewrites *quote* the bare values, so the record carries the
strings "true" and "0.8" - not a genuine boolean and a genuine number -
contradicting the claim that layers 1-3 yield correctly typed fields. -/
theorem c4_layer1_stringifies_fields :
    (buildResult envBase wSiteA contentMalformed).has_age_verification = JVal.str "true" ∧
    (buildResult envBase wSiteA contentMalformed).confidence_score = JVal.str "0.8" ∧
    (buildResult envBase wSiteA contentMalformed).has_age_verification.asBool = none ∧
    (buildResult envBase wSiteA contentMalformed).confidence_score.asNum = none :=
  ⟨rfl, rfl, rfl, rfl⟩

set_option maxRecDepth 10000 in
/-- Claim C4, amended: for the canonical malformed inputs with the four
expected keys, a bare boolean detection value and a bare decimal
confidence, the recovery chain resolves them at layer 1 but with the
boolean and the number *stringified* (the quoted forms "true"/"false" and
"0.d"), not as genuine boolean/number values. -/
theorem c4_amended_layer1_yields_string_typed_fields :
    ∀ (b : Bool) (d : Fin 10),
      (buildResult envBase wSiteA (mkMalformed b d)).has_age_verification.asStr =
        some (if b then "true" else "false") ∧
      (buildResult envBase wSiteA (mkMalformed b d)).confidence_score.asStr =
        some ("0." ++ String.mk [digitChar d]) ∧
      (buildResult envBase wSiteA (mkMalformed b d)).has_age_verification.asBool = none ∧
      (buildResult envBase wSiteA (mkMalformed b d)).confidence_score.asNum = none := by
  decide

/-- Claim C5, counterexample: for the braceless raw text
`headers: confidence_score: 0.95, has_age_verification: true`, the parser
returns null at the brace-span step (layer 4 is never reached), and the
dispatcher's substring fallback produces confidence 0.7 - not the claimed
0.95 extracted by layer 4. -/
theorem c5_braceless_input_resolves_via_fallback :
    parseRobustJSON envBase.repair contentBraceless = none ∧
    (buildResult envBase wSiteA contentBraceless).confidence_score = JVal.num 0.7 ∧
    ¬((buildResult envBase wSiteA contentBraceless).confidence_score = JVal.num 0.95) ∧
    (buildResult envBase wSiteA contentBraceless).has_age_verification = JVal.bool true := by
  have h1 : (buildResult envBase wSiteA contentBraceless).confidence_score = JVal.num 0.7 := by
    rfl
  refine ⟨rfl, h1, ?_, rfl⟩
  rw [h1]
  intro hc
  injection hc with hc'
  norm_num at hc'

/-- Claim C5, amended: a braceless raw text bypasses `parseRobustJSON`
entirely (it returns null at the brace-span check), and when the text
contains a trigger substring (here "verification" inside
`has_age_verification`) the dispatcher fallback reports detection with the
fixed confidence 0.7 and kind "detected". -/
theorem c5_amended_braceless_uses_dispatcher_fallback (env : Env) (w : WebsiteData)
    (content : String) (hspan : extractJsonSpan content.data = none)
    (htrig : fallbackHasVerif content = true) :
    parseRobustJSON env.repair content = none ∧
    (buildResult env w content).has_age_verification = JVal.bool true ∧
    (buildResult env w content).confidence_score = JVal.num 0.7 ∧
    (buildResult env w content).verification_type = JVal.str "detected" := by
  have hnone : parseRobustJSON env.repair content = none := by
    unfold parseRobustJSON
    rw [hspan]
  refine ⟨hnone, ?_, ?_, ?_⟩ <;>
    · unfold buildResult
      rw [hnone]
      unfold fallbackResult
      simp [htrig]

/-- Claim C5 amended, witness: the specification's braceless example
text. -/
theorem c5_amended_witness :
    extractJsonSpan contentBraceless.data = none ∧
    fallbackHasVerif contentBraceless = true ∧
    parseRobustJSON envBase.repair contentBraceless = none ∧
    (buildResult envBase wSiteA contentBraceless).has_age_verification = JVal.bool true ∧
    (buildResult envBase wSiteA contentBraceless).confidence_score = JVal.num 0.7 ∧
    (buildResult envBase wSiteA contentBraceless).verification_type = JVal.str "detected" := by
  have hs : extractJsonSpan contentBraceless.data = none := by decide
  have ht : fallbackHasVerif contentBraceless = true := by decide
  obtain ⟨a, b, c, d⟩ :=
    c5_amended_braceless_uses_dispatcher_fallback envBase wSiteA contentBraceless hs ht
  exact ⟨hs, ht, a, b, c, d⟩

/-- Claim C6: whenever the run returns a result list, the i-th record
corresponds to the i-th target - the record websites are exactly the
target urls in input order.  (In the model `Promise.all` preserves index
order by construction, which is how the route achieves order-independence
from completion order.) -/
theorem c6_results_aligned_with_input (env : Env) (ws : List WebsiteData)
    (rs : List AuditResult) (h : (POST env ws).resultsOf = some rs) :
    rs.map AuditResult.website = ws.map WebsiteData.url := by
  unfold POST at h
  by_cases hemp : ws.isEmpty = true
  · rw [if_pos hemp] at h
    exact absurd h (by simp [ApiResponse.resultsOf])
  · rw [if_neg hemp] at h
    by_cases hh : (!env.healthOk) = true
    · rw [if_pos hh] at h
      exact absurd h (by simp [ApiResponse.resultsOf])
    · rw [if_neg hh] at h
      cases hout : (processLoop env ws.length ws 0 [] 0).outcome with
      | ok results =>
        rw [hout] at h
        simp only [ApiResponse.resultsOf, Option.some.injEq] at h
        subst h
        rw [processLoop_ok_inv env ws.length ws 0 [] 0 results le_rfl hout]
        simp only [List.nil_append, List.map_map]
        exact List.map_congr_left (fun w _ => processWebsite_website env w)
      | error e =>
        rw [hout] at h
        exact absurd h (by simp [routeCatch, ApiResponse.resultsOf])

/-- Claim C6, witness: a concrete two-target run whose record websites
match the target urls positionally. -/
theorem c6_witness :
    (POST envBase [wSiteA, wSiteB]).resultsOf =
      some ((POST envBase [wSiteA, wSiteB]).resultsOf.getD []) ∧
    ((POST envBase [wSiteA, wSiteB]).resultsOf.getD []).map AuditResult.website =
      [wSiteA, wSiteB].map WebsiteData.url :=
  ⟨rfl, c6_results_aligned_with_input envBase [wSiteA, wSiteB] _ rfl⟩

/-- Claim C7: when the liveness probe fails, the run aborts with a single
503 service-unavailable response before issuing any per-target inference
call: zero chat calls are made and no per-target records are produced. -/
theorem c7_health_probe_failure_short_circuits (env : Env) (ws : List WebsiteData)
    (hne : ws ≠ []) (hh : env.healthOk = false) :
    POST env ws = .errorResp 503
      "Ollama service not available or not responding. Please ensure Ollama is running with: ollama serve"
      env.healthErrMsg ∧
    POSTchatCalls env ws = 0 ∧ (POST env ws).resultsOf = none := by
  have hne' : ws.isEmpty = false := by
    cases ws with
    | nil => exact absurd rfl hne
    | cons a l => rfl
  have hpost : POST env ws = .errorResp 503
      "Ollama service not available or not responding. Please ensure Ollama is running with: ollama serve"
      env.healthErrMsg := by
    unfold POST
    rw [hne', hh]
    simp
  refine ⟨hpost, ?_, by rw [hpost]; rfl⟩
  unfold POSTchatCalls
  rw [hne', hh]
  simp

/-- Claim C7, witness: a concrete down-service run. -/
theorem c7_witness :
    [wSiteA] ≠ [] ∧ envDown.healthOk = false ∧
    POST envDown [wSiteA] = .errorResp 503
      "Ollama service not available or not responding. Please ensure Ollama is running with: ollama serve"
      envDown.healthErrMsg ∧
    POSTchatCalls envDown [wSiteA] = 0 ∧ (POST envDown [wSiteA]).resultsOf = none := by
  have h1 : [wSiteA] ≠ ([] : List WebsiteData) := by simp
  obtain ⟨a, b, c⟩ := c7_health_probe_failure_short_circuits envDown [wSiteA] h1 rfl
  exact ⟨h1, rfl, a, b, c⟩

/-- Claim C8, counterexample: a connection-refused failure (ECONNREFUSED)
is classified "error", not "timeout" - the route's marker list is
timeout/timed out/ETIMEDOUT/ENOTFOUND and contains no connection-refused
marker, contradicting the claim that connection-refused maps to kind
"timeout". -/
theorem c8_connection_refused_classified_error :
    (runAttempts envRefused wSiteA).outcome = Except.error eRefused ∧
    strIncludes eRefused "ECONNREFUSED" = true ∧
    (processWebsite envRefused wSiteA).verification_type = JVal.str "error" ∧
    ¬((processWebsite envRefused wSiteA).verification_type = JVal.str "timeout") := by
  have h3 : (processWebsite envRefused wSiteA).verification_type = JVal.str "error" := by
    rfl
  refine ⟨rfl, by decide, h3, ?_⟩
  rw [h3]
  intro hc
  injection hc with hc'
  exact absurd hc' (by decide)

/-- Claim C8, amended: for every target whose retries are exhausted, the
synthesized record has kind "timeout" exactly when the thrown error's
message contains one of the markers "timeout", "timed out", "ETIMEDOUT"
(timeout signals) or "ENOTFOUND" (dns failure); otherwise kind "error"
with the error message carried in the details field (the timeout case
carries a fixed overload notice instead). -/
theorem c8_amended_error_classification (env : Env) (w : WebsiteData) (e : String)
    (h : (runAttempts env w).outcome = .error e) :
    (processWebsite env w).verification_type =
      JVal.str (if isTimeoutErrorMsg e then "timeout" else "error") ∧
    (processWebsite env w).details =
      JVal.str (if isTimeoutErrorMsg e then
          "Request timed out - Ollama service may be overloaded or unavailable"
        else "Error: " ++ e) := by
  rw [processWebsite_of_error env w e h]
  exact ⟨rfl, rfl⟩

/-- Claim C8 amended, witness: a run whose generic failure message carries
none of the markers. -/
theorem c8_amended_witness :
    (runAttempts envBoom wSiteA).outcome = Except.error eBoom ∧
    isTimeoutErrorMsg eBoom = false ∧
    (processWebsite envBoom wSiteA).verification_type = JVal.str "error" ∧
    (processWebsite envBoom wSiteA).details = JVal.str ("Error: " ++ eBoom) := by
  have hout : (runAttempts envBoom wSiteA).outcome = Except.error eBoom := rfl
  have hto : isTimeoutErrorMsg eBoom = false := by decide
  obtain ⟨a, b⟩ := c8_amended_error_classification envBoom wSiteA eBoom hout
  rw [hto] at a b
  exact ⟨hout, hto, by simpa using a, by simpa using b⟩

/-- Claim C9: for every target, the inference call is attempted at most
`maxRetries + 1` times (the loop terminates by construction); the n-th
back-off sleep before re-attempt n lasts `1000 * n` ms (linear back-off);
and exhausting the retries yields a target-local failure record via the
per-target catch, never a run-level abort. -/
theorem c9_retry_bounded_linear_backoff_local_failure (env : Env) (w : WebsiteData) :
    (runAttempts env w).attempts ≤ OLLAMA_CONFIG.maxRetries + 1 ∧
    (runAttempts env w).sleeps =
      (List.range (runAttempts env w).sleeps.length).map (fun i => 1000 * (i + 1)) ∧
    ∀ e, (runAttempts env w).outcome = Except.error e →
      processWebsite env w = errorRecord env w e := by
  refine ⟨runAttemptsGo_attempts_le env (mkPrompt w) _ 0, ?_,
    fun e he => processWebsite_of_error env w e he⟩
  unfold runAttempts
  conv_lhs => rw [runAttemptsGo_sleeps env (mkPrompt w) (OLLAMA_CONFIG.maxRetries + 1) 0]
  exact List.map_congr_left (fun a _ => by omega)

/-- Claim C9, witness: a run whose three attempts all fail, sleeping 1000
then 2000 ms, and ending in a local failure record. -/
theorem c9_witness :
    (runAttempts envBoom wSiteB).attempts ≤ OLLAMA_CONFIG.maxRetries + 1 ∧
    (runAttempts envBoom wSiteB).sleeps = [1000, 2000] ∧
    processWebsite envBoom wSiteB = errorRecord envBoom wSiteB eBoom := by
  obtain ⟨h1, _, h3⟩ := c9_retry_bounded_linear_backoff_local_failure envBoom wSiteB
  exact ⟨h1, rfl, h3 eBoom rfl⟩

/-- Claim C10: whenever layer-4 extraction captures a confidence that
normalizes to exactly 0, the default-filling step - which tests the field
for falsiness rather than absence - overwrites the 0 with the default
(0.7 when detection is inferred true, 0.5 otherwise), so layer 4 can never
return an explicitly stated zero confidence. -/
theorem c10_layer4_zero_confidence_overwritten (content : String)
    (h : extractConfidence content.data = some 0) :
    ((attempt4 content.data).confidence_score = 0.7 ∨
      (attempt4 content.data).confidence_score = 0.5) ∧
    (attempt4 content.data).confidence_score ≠ 0 := by
  have hmain : ∀ (hv : Bool),
      ((if hv then (0.7 : ℚ) else 0.5) = 0.7 ∨ (if hv then (0.7 : ℚ) else 0.5) = 0.5) ∧
      (if hv then (0.7 : ℚ) else 0.5) ≠ 0 := by
    intro hv
    cases hv <;> norm_num
  have hcs : (attempt4 content.data).confidence_score =
      if (match extractHasVerif content.data with
          | some b => b
          | none => inferVerification content.data) then (0.7 : ℚ) else 0.5 := by
    unfold attempt4
    rw [h]
    rfl
  rw [hcs]
  exact hmain _

/-- Claim C10, witness: the text `{confidence_score: 0}` extracts 0 at
layer 4 and the produced record carries the default 0.5. -/
theorem c10_witness :
    extractConfidence contentZeroConf.data = some 0 ∧
    (attempt4 contentZeroConf.data).confidence_score = 0.5 ∧
    (attempt4 contentZeroConf.data).confidence_score ≠ 0 := by
  have h : extractConfidence contentZeroConf.data = some 0 := by decide
  exact ⟨h, by decide, (c10_layer4_zero_confidence_overwritten contentZeroConf h).2⟩

end FastAudit
